import Mathlib

/-!
Shallow embedding of the performance-profile subsystem of the monk-journey
game: the tunable tables and profile resolver of
`src/js/config/performance-profile.js`, the scene optimizer of
`src/js/game/SceneOptimizer.js`, the quality-level persistence of
`GameplayTab` and, modelled from the spec, the frame-budgeted generation
scheduler. JavaScript numbers appearing in these modules are exact small
rationals, so they are embedded as `ℚ`; the one `Infinity` value is embedded
by an explicit extended-number type.
-/

/-- A JavaScript value, as far as the embedded code can observe one:
the profile resolver receives an arbitrary dynamic value as its
`isMinimal` argument and branches on its boolean coercion. -/
inductive JSValue where
  | undef : JSValue
  | null : JSValue
  | bool : Bool → JSValue
  | num : ℚ → JSValue
  | str : String → JSValue
deriving DecidableEq

/-- JavaScript boolean coercion (truthiness) of a value: `undefined`, `null`,
`false`, `0` and the empty string are falsy, everything else is truthy.
(`NaN` does not arise in this embedding; the numbers involved are exact.) -/
def JSValue.toBool : JSValue → Bool
  | .undef => false
  | .null => false
  | .bool b => b
  | .num q => q != 0
  | .str s => s != ""

/-- A two-tier tunable table with a `normal` and a `minimal` entry,
the shape of every exported table of `performance-profile.js`. -/
structure ProfileTable (α : Type) where
  normal : α
  minimal : α
deriving DecidableEq

/-- Lookup `TABLE[level]` for the two level strings the resolver produces. -/
def ProfileTable.index {α : Type} (t : ProfileTable α) (level : String) : α :=
  if level = "minimal" then t.minimal else t.normal

/-- One tier of `TERRAIN_LOD`: terrain resolution by distance band. -/
structure TerrainLodConfig where
  nearResolution : ℚ
  midResolution : ℚ
  farResolution : ℚ
  bufferResolution : ℚ
deriving DecidableEq

/-- A JavaScript number that may be `Infinity`
(`SHADOW_CASTER_DISTANCE.normal`). -/
inductive JSNum where
  | fin : ℚ → JSNum
  | inf : JSNum
deriving DecidableEq

/-- `TERRAIN_LOD` from `performance-profile.js`. -/
def TERRAIN_LOD : ProfileTable TerrainLodConfig where
  normal := { nearResolution := 24, midResolution := 16, farResolution := 12, bufferResolution := 8 }
  minimal := { nearResolution := 12, midResolution := 8, farResolution := 6, bufferResolution := 4 }

/-- `VIEW_DISTANCE` from `performance-profile.js`. -/
def VIEW_DISTANCE : ProfileTable ℚ where
  normal := 3
  minimal := 2

/-- `BUFFER_DISTANCE` from `performance-profile.js`. -/
def BUFFER_DISTANCE : ProfileTable ℚ where
  normal := 5
  minimal := 3

/-- `CHUNKS_PER_FRAME` from `performance-profile.js`. -/
def CHUNKS_PER_FRAME : ProfileTable ℚ where
  normal := 2
  minimal := 1

/-- `ENVIRONMENT_DENSITY_MULTIPLIER` from `performance-profile.js`. -/
def ENVIRONMENT_DENSITY_MULTIPLIER : ProfileTable ℚ where
  normal := 1.0
  minimal := 0.25

/-- `STRUCTURE_DENSITY_MULTIPLIER` from `performance-profile.js`. -/
def STRUCTURE_DENSITY_MULTIPLIER : ProfileTable ℚ where
  normal := 1.0
  minimal := 0.2

/-- `STRUCTURE_CHUNKS_PER_FRAME` from `performance-profile.js`. -/
def STRUCTURE_CHUNKS_PER_FRAME : ProfileTable ℚ where
  normal := 2
  minimal := 1

/-- `ENV_CHUNKS_PER_FRAME` from `performance-profile.js`. -/
def ENV_CHUNKS_PER_FRAME : ProfileTable ℚ where
  normal := 2
  minimal := 1

/-- `SHADOW_CASTER_DISTANCE` from `performance-profile.js`. -/
def SHADOW_CASTER_DISTANCE : ProfileTable JSNum where
  normal := JSNum.inf
  minimal := JSNum.fin 0

/-- The record returned by `getPerformanceProfile`. -/
structure PerformanceProfile where
  terrainLod : TerrainLodConfig
  viewDistance : ℚ
  bufferDistance : ℚ
  chunksPerFrame : ℚ
  environmentDensity : ℚ
  structureDensity : ℚ
  structureChunksPerFrame : ℚ
  envChunksPerFrame : ℚ
  shadowCasterDistance : JSNum
deriving DecidableEq

/-- The module-level state of `performance-profile.js`: the nine exported
tunable tables. The resolver only reads this state; threading it explicitly
makes that observable. -/
structure ProfileTables where
  terrainLod : ProfileTable TerrainLodConfig
  viewDistance : ProfileTable ℚ
  bufferDistance : ProfileTable ℚ
  chunksPerFrame : ProfileTable ℚ
  environmentDensity : ProfileTable ℚ
  structureDensity : ProfileTable ℚ
  structureChunksPerFrame : ProfileTable ℚ
  envChunksPerFrame : ProfileTable ℚ
  shadowCasterDistance : ProfileTable JSNum
deriving DecidableEq

/-- The tables as initialized by the module. -/
def moduleTables : ProfileTables where
  terrainLod := TERRAIN_LOD
  viewDistance := VIEW_DISTANCE
  bufferDistance := BUFFER_DISTANCE
  chunksPerFrame := CHUNKS_PER_FRAME
  environmentDensity := ENVIRONMENT_DENSITY_MULTIPLIER
  structureDensity := STRUCTURE_DENSITY_MULTIPLIER
  structureChunksPerFrame := STRUCTURE_CHUNKS_PER_FRAME
  envChunksPerFrame := ENV_CHUNKS_PER_FRAME
  shadowCasterDistance := SHADOW_CASTER_DISTANCE

/-- State-passing embedding of `getPerformanceProfile(isMinimal)`:
`const level = isMinimal ? 'minimal' : 'normal'` followed by one
`TABLE[level]` read per field. The table state is returned unchanged
because the source only reads it. -/
def getPerformanceProfileSt (tables : ProfileTables) (isMinimal : JSValue) :
    PerformanceProfile × ProfileTables :=
  let level : String := if isMinimal.toBool then "minimal" else "normal"
  ({ terrainLod := tables.terrainLod.index level
     viewDistance := tables.viewDistance.index level
     bufferDistance := tables.bufferDistance.index level
     chunksPerFrame := tables.chunksPerFrame.index level
     environmentDensity := tables.environmentDensity.index level
     structureDensity := tables.structureDensity.index level
     structureChunksPerFrame := tables.structureChunksPerFrame.index level
     envChunksPerFrame := tables.envChunksPerFrame.index level
     shadowCasterDistance := tables.shadowCasterDistance.index level }, tables)

/-- `getPerformanceProfile(isMinimal)` applied to the module's tables. -/
def getPerformanceProfile (isMinimal : JSValue) : PerformanceProfile :=
  (getPerformanceProfileSt moduleTables isMinimal).1

/-- The profile assembled from the `normal` entry of every tunable table
(the spec's fallback profile). -/
def normalProfile : PerformanceProfile where
  terrainLod := TERRAIN_LOD.normal
  viewDistance := VIEW_DISTANCE.normal
  bufferDistance := BUFFER_DISTANCE.normal
  chunksPerFrame := CHUNKS_PER_FRAME.normal
  environmentDensity := ENVIRONMENT_DENSITY_MULTIPLIER.normal
  structureDensity := STRUCTURE_DENSITY_MULTIPLIER.normal
  structureChunksPerFrame := STRUCTURE_CHUNKS_PER_FRAME.normal
  envChunksPerFrame := ENV_CHUNKS_PER_FRAME.normal
  shadowCasterDistance := SHADOW_CASTER_DISTANCE.normal

/-- The profile assembled from the `minimal` entry of every tunable table. -/
def minimalProfile : PerformanceProfile where
  terrainLod := TERRAIN_LOD.minimal
  viewDistance := VIEW_DISTANCE.minimal
  bufferDistance := BUFFER_DISTANCE.minimal
  chunksPerFrame := CHUNKS_PER_FRAME.minimal
  environmentDensity := ENVIRONMENT_DENSITY_MULTIPLIER.minimal
  structureDensity := STRUCTURE_DENSITY_MULTIPLIER.minimal
  structureChunksPerFrame := STRUCTURE_CHUNKS_PER_FRAME.minimal
  envChunksPerFrame := ENV_CHUNKS_PER_FRAME.minimal
  shadowCasterDistance := SHADOW_CASTER_DISTANCE.minimal

/-! ## SceneOptimizer (`src/js/game/SceneOptimizer.js`)

The scene is a tree of Three.js objects; `scene.traverse` applies the
optimizer callback to every object. Texture filter constants are the
numeric constants of Three.js (`NearestFilter = 1003`). -/

/-- Three.js `NearestFilter` texture-filter constant. -/
def NearestFilter : ℕ := 1003

/-- The texture state the optimizer touches (`material.map`). -/
structure TextureState where
  anisotropy : ℚ
  minFilter : ℕ
  magFilter : ℕ
  generateMipmaps : Bool
deriving DecidableEq

/-- The material state the optimizer touches. In the source a mesh's
`material` may be a single material or an array; both are embedded as a
list (the source itself normalizes with `Array.isArray ? m : [m]`). -/
structure MaterialState where
  precision : String
  fog : Bool
  map : Option TextureState
  flatShading : Bool
deriving DecidableEq

/-- `shadow.mapSize`. -/
structure MapSize where
  width : ℚ
  height : ℚ
deriving DecidableEq

/-- `shadow.camera`; `projectionMatrixUpdates` counts the
`updateProjectionMatrix()` calls observed by the camera. -/
structure ShadowCamera where
  isOrthographicCamera : Bool
  left : ℚ
  right : ℚ
  top : ℚ
  bottom : ℚ
  projectionMatrixUpdates : ℕ
deriving DecidableEq

/-- A light's `shadow` object. -/
structure LightShadow where
  mapSize : MapSize
  camera : Option ShadowCamera
deriving DecidableEq

/-- The fields of a scene-graph object (`THREE.Object3D`) that
`SceneOptimizer` reads or writes. `material` is `none` when the object has
no material; `shadow` is `none` when `object.shadow` is absent. -/
structure Obj3D where
  isMesh : Bool
  isLight : Bool
  frustumCulled : Bool
  castShadow : Bool
  receiveShadow : Bool
  matrixAutoUpdate : Bool
  material : Option (List MaterialState)
  shadow : Option LightShadow
deriving DecidableEq

mutual

/-- A scene-graph node: an object and its children. -/
inductive SceneNode where
  | mk : Obj3D → SceneForest → SceneNode

/-- A list of scene-graph nodes (children of a node, or roots). -/
inductive SceneForest where
  | nil : SceneForest
  | cons : SceneNode → SceneForest → SceneForest

end

/-- A Three.js scene: whether `scene.fog` is set (the source only reads its
truthiness, `!!scene.fog`), and the object tree `scene.traverse` walks. -/
structure Scene where
  fog : Bool
  root : SceneForest

/-- The material mutation of the traverse callback: precision `lowp`/`mediump`,
fog from the scene, texture anisotropy 1, and in minimal mode nearest
filtering, no mipmaps and flat shading. -/
def optimizeMaterial (isMinimal hasFog : Bool) (material : MaterialState) : MaterialState :=
  let material := { material with
    precision := if isMinimal then "lowp" else "mediump"
    fog := hasFog }
  let material :=
    match material.map with
    | some t =>
      let t := { t with anisotropy := 1 }
      let t :=
        if isMinimal then
          { t with minFilter := NearestFilter, magFilter := NearestFilter,
                   generateMipmaps := false }
        else t
      { material with map := some t }
    | none => material
  if isMinimal then { material with flatShading := true } else material

/-- The light-shadow mutation of the non-minimal branch: 1024×1024 shadow
map, and an orthographic shadow camera tightened to ±20 followed by
`updateProjectionMatrix()`. -/
def optimizeLightShadow (sh : LightShadow) : LightShadow :=
  let sh := { sh with mapSize := { width := 1024, height := 1024 } }
  match sh.camera with
  | some camera =>
    if camera.isOrthographicCamera then
      { sh with camera := some { camera with
          left := -20, right := 20, top := 20, bottom := -20,
          projectionMatrixUpdates := camera.projectionMatrixUpdates + 1 } }
    else sh
  | none => sh

/-- The per-object body of the `scene.traverse` callback in
`SceneOptimizer.optimizeScene`. -/
def optimizeObject (isMinimal hasFog : Bool) (obj : Obj3D) : Obj3D :=
  let obj :=
    if obj.isMesh then
      let obj := { obj with frustumCulled := true }
      let obj :=
        if isMinimal then { obj with castShadow := false, receiveShadow := false }
        else if obj.castShadow then { obj with castShadow := true, matrixAutoUpdate := true }
        else obj
      match obj.material with
      | some materials =>
        { obj with material := some (materials.map (optimizeMaterial isMinimal hasFog)) }
      | none => obj
    else obj
  if obj.isLight then
    match obj.shadow with
    | some sh =>
      if isMinimal then { obj with castShadow := false }
      else { obj with shadow := some (optimizeLightShadow sh) }
    | none => obj
  else obj

mutual

/-- Apply the traverse callback to a node and all its descendants. -/
def optimizeNode (isMinimal hasFog : Bool) : SceneNode → SceneNode
  | .mk obj children =>
    .mk (optimizeObject isMinimal hasFog obj) (optimizeForest isMinimal hasFog children)

/-- Apply the traverse callback to every node of a forest. -/
def optimizeForest (isMinimal hasFog : Bool) : SceneForest → SceneForest
  | .nil => .nil
  | .cons n f => .cons (optimizeNode isMinimal hasFog n) (optimizeForest isMinimal hasFog f)

end

/-- `SceneOptimizer.optimizeScene(scene, qualityLevel)`:
`isMinimal = qualityLevel === 'minimal'`, then traverse. -/
def SceneOptimizer.optimizeScene (scene : Scene) (qualityLevel : String) : Scene :=
  let isMinimal : Bool := qualityLevel == "minimal"
  { scene with root := optimizeForest isMinimal scene.fog scene.root }

mutual

/-- All objects of a node and its descendants, in traversal order. -/
def nodeObjects : SceneNode → List Obj3D
  | .mk obj children => obj :: forestObjects children

/-- All objects of a forest, in traversal order. -/
def forestObjects : SceneForest → List Obj3D
  | .nil => []
  | .cons n f => nodeObjects n ++ forestObjects f

end

/-- Shadow casting is fully disabled on an object: a mesh neither casts nor
receives, and a light that has a shadow does not cast. -/
def shadowsDisabled (o : Obj3D) : Bool :=
  (!o.isMesh || (!o.castShadow && !o.receiveShadow)) &&
  (!o.isLight || !o.shadow.isSome || !o.castShadow)

/-- A concrete shadow-casting mesh, for evaluating the optimizer. -/
def sampleMesh : Obj3D where
  isMesh := true
  isLight := false
  frustumCulled := false
  castShadow := true
  receiveShadow := true
  matrixAutoUpdate := false
  material := some [{ precision := "highp", fog := false, map := none, flatShading := false }]
  shadow := none

/-- A concrete shadow-casting light, for evaluating the optimizer. -/
def sampleLight : Obj3D where
  isMesh := false
  isLight := true
  frustumCulled := false
  castShadow := true
  receiveShadow := false
  matrixAutoUpdate := false
  material := none
  shadow := some
    { mapSize := { width := 512, height := 512 }
      camera := some
        { isOrthographicCamera := true, left := -5, right := 5, top := 5, bottom := -5,
          projectionMatrixUpdates := 0 } }

/-- A concrete two-object scene, for evaluating the optimizer. -/
def sampleScene : Scene where
  fog := true
  root := .cons (.mk sampleMesh (.cons (.mk sampleLight .nil) .nil)) .nil

/-- The sample mesh after the minimal-mode traverse callback. -/
def sampleMeshOptimized : Obj3D := optimizeObject true true sampleMesh

/-! ## GameplayTab performance-settings persistence (`GameplayTab.js`)

The minimal-mode checkbox change listener and `saveSettings` both write the
quality-level storage key the same way: `isMinimal ? 'minimal' : 'ultra'`. -/

/-- The value the minimal-mode checkbox change listener writes to the
`QUALITY_LEVEL` storage key, as a function of the checkbox state. -/
def GameplayTab.changeQualityLevel (checked : Bool) : String :=
  if checked then "minimal" else "ultra"

/-- The value `GameplayTab.saveSettings` writes to the `QUALITY_LEVEL`
storage key, as a function of the minimal-mode checkbox state. -/
def GameplayTab.saveQualityLevel (checked : Bool) : String :=
  if checked then "minimal" else "ultra"

/-- The value both sites write to the `MINIMAL_MODE` storage key:
`isMinimal.toString()`. -/
def GameplayTab.minimalModeValue (checked : Bool) : String :=
  if checked then "true" else "false"

/-! ## GenerationScheduler

Modelled from the spec: the `GenerationScheduler` component (§4.3 of the
spec) is not present in the repository sources — only its tunables
(`CHUNKS_PER_FRAME`, `STRUCTURE_CHUNKS_PER_FRAME`, `ENV_CHUNKS_PER_FRAME`)
are. The model follows the spec's words: `step(desired, resident, profile)`
runs once per frame, emits eviction actions for every resident chunk no
longer desired (not quota-limited, applied before generation), and walks the
nearest-first desired list emitting the next pipeline step for each chunk,
each of the three generation categories drawing from its own independent
quota. -/

/-- A chunk coordinate `(cx, cz)`. -/
abbrev ChunkCoordinate := ℤ × ℤ

/-- The per-chunk generation pipeline stage (spec §4.4). -/
inductive GenStage where
  | absent
  | terrainQueued
  | terrainReady
  | structuresQueued
  | structuresReady
  | environmentQueued
  | fullyPopulated
deriving DecidableEq

/-- An action emitted by the scheduler in one frame. -/
inductive SchedAction where
  | generateTerrain : ChunkCoordinate → SchedAction
  | generateStructures : ChunkCoordinate → SchedAction
  | generateEnvironment : ChunkCoordinate → SchedAction
  | evict : ChunkCoordinate → SchedAction
deriving DecidableEq

/-- Modelled from the spec: the stage of a chunk among the resident set;
a chunk not resident is `absent`. -/
def residentStage (resident : List (ChunkCoordinate × GenStage)) (c : ChunkCoordinate) : GenStage :=
  match resident.find? (fun p => p.1 == c) with
  | some p => p.2
  | none => GenStage.absent

/-- Modelled from the spec: walk the nearest-first desired list, emitting
for each chunk the next pipeline step its stage calls for, while its
category's quota lasts; chunks whose category quota is exhausted are
deferred to a later frame, without blocking the other two categories. -/
def stepGenerate (resident : List (ChunkCoordinate × GenStage)) :
    List ChunkCoordinate → ℕ → ℕ → ℕ → List SchedAction
  | [], _, _, _ => []
  | c :: rest, tq, sq, vq =>
    match residentStage resident c with
    | .absent =>
      if tq = 0 then stepGenerate resident rest tq sq vq
      else SchedAction.generateTerrain c :: stepGenerate resident rest (tq - 1) sq vq
    | .terrainReady =>
      if sq = 0 then stepGenerate resident rest tq sq vq
      else SchedAction.generateStructures c :: stepGenerate resident rest tq (sq - 1) vq
    | .structuresReady =>
      if vq = 0 then stepGenerate resident rest tq sq vq
      else SchedAction.generateEnvironment c :: stepGenerate resident rest tq sq (vq - 1)
    | _ => stepGenerate resident rest tq sq vq

/-- The integer value of a non-negative integral quota field. -/
def quotaNat (q : ℚ) : ℕ := q.num.toNat

/-- Modelled from the spec: `GenerationScheduler.step(desired, resident,
profile)` — evictions for `resident − desired` first (never quota-limited),
then generation actions under the three independent per-frame quotas taken
from the profile. -/
def GenerationScheduler.step (desired : List ChunkCoordinate)
    (resident : List (ChunkCoordinate × GenStage))
    (profile : PerformanceProfile) : List SchedAction :=
  (resident.filter (fun p => !(desired.contains p.1))).map (fun p => SchedAction.evict p.1) ++
    stepGenerate resident desired
      (quotaNat profile.chunksPerFrame)
      (quotaNat profile.structureChunksPerFrame)
      (quotaNat profile.envChunksPerFrame)

/-- Is this action a terrain-generation action? -/
def SchedAction.isTerrain : SchedAction → Bool
  | .generateTerrain _ => true
  | _ => false

/-- Is this action a structure-generation action? -/
def SchedAction.isStructure : SchedAction → Bool
  | .generateStructures _ => true
  | _ => false

/-- Is this action an environment-generation action? -/
def SchedAction.isEnvironment : SchedAction → Bool
  | .generateEnvironment _ => true
  | _ => false

/-- Number of actions of one category in a batch. -/
def countActions (p : SchedAction → Bool) (batch : List SchedAction) : ℕ :=
  (batch.filter p).length

/-! ## Claims about the profile resolver -/

/-- Indexing a tunable table at the level string `'normal'`. -/
theorem ProfileTable.index_normal {α : Type} (t : ProfileTable α) :
    t.index "normal" = t.normal := rfl

/-- Indexing a tunable table at the level string `'minimal'`. -/
theorem ProfileTable.index_minimal {α : Type} (t : ProfileTable α) :
    t.index "minimal" = t.minimal := rfl

/-- C1 counterexample: the mode value `'normal'` — which names the normal
tier and certainly does not select the minimal mode — does not resolve to
the profile assembled from the `normal` table entries: being a non-empty
string it is truthy, so the resolver returns the minimal-tier profile. -/
theorem resolveUnknownModeSelectsMinimal :
    getPerformanceProfile (JSValue.str "normal") = minimalProfile ∧
    getPerformanceProfile (JSValue.str "normal") ≠ normalProfile := by
  refine ⟨rfl, fun h => ?_⟩
  have h2 : (2 : ℚ) = 3 := congrArg PerformanceProfile.viewDistance h
  norm_num at h2

/-- C1 (amended): `getPerformanceProfile` is total over arbitrary dynamic
mode values and branches solely on the argument's boolean coercion: every
falsy argument (false, 0, the empty string, null, undefined) yields the
profile assembled from the `normal` entries of every tunable table, and
every truthy argument — recognized or not — yields the `minimal` entries. -/
theorem resolveTotalByTruthiness (v : JSValue) :
    getPerformanceProfile v = if v.toBool then minimalProfile else normalProfile := by
  cases hv : v.toBool <;>
    simp only [getPerformanceProfile, getPerformanceProfileSt, hv, if_true, if_false] <;> rfl

/-- C2: the minimal profile dominates downward — its structure density and
view distance are at most the normal profile's, and its shadow caster
distance is 0. -/
theorem minimalDominatesDownward :
    (getPerformanceProfile (JSValue.bool true)).structureDensity ≤
      (getPerformanceProfile (JSValue.bool false)).structureDensity ∧
    (getPerformanceProfile (JSValue.bool true)).viewDistance ≤
      (getPerformanceProfile (JSValue.bool false)).viewDistance ∧
    (getPerformanceProfile (JSValue.bool true)).shadowCasterDistance = JSNum.fin 0 := by
  refine ⟨?_, ?_, rfl⟩ <;>
    norm_num [getPerformanceProfile, getPerformanceProfileSt, JSValue.toBool,
      moduleTables, ProfileTable.index_normal, ProfileTable.index_minimal,
      STRUCTURE_DENSITY_MULTIPLIER, VIEW_DISTANCE]

/-- C4: for every mode value, the resolved profile has integer view and
buffer chunk radii with `bufferDistance ≥ viewDistance`. -/
theorem bufferDominatesView (v : JSValue) :
    (∃ m : ℕ, (getPerformanceProfile v).viewDistance = m) ∧
    (∃ n : ℕ, (getPerformanceProfile v).bufferDistance = n) ∧
    (getPerformanceProfile v).viewDistance ≤ (getPerformanceProfile v).bufferDistance := by
  cases hv : v.toBool <;>
    simp only [getPerformanceProfile, getPerformanceProfileSt, hv, if_true, if_false]
  · exact ⟨⟨3, rfl⟩, ⟨5, rfl⟩, by
      norm_num [moduleTables, ProfileTable.index_normal, VIEW_DISTANCE, BUFFER_DISTANCE]⟩
  · exact ⟨⟨2, rfl⟩, ⟨3, rfl⟩, by
      norm_num [moduleTables, ProfileTable.index_minimal, VIEW_DISTANCE, BUFFER_DISTANCE]⟩

/-- C7: for every mode value, all three per-frame quotas of the resolved
profile are non-negative integers, and both density multipliers lie in
`[0, 1]`. -/
theorem quotasIntegralDensitiesUnit (v : JSValue) :
    (∃ a : ℕ, (getPerformanceProfile v).chunksPerFrame = a) ∧
    (∃ b : ℕ, (getPerformanceProfile v).structureChunksPerFrame = b) ∧
    (∃ c : ℕ, (getPerformanceProfile v).envChunksPerFrame = c) ∧
    0 ≤ (getPerformanceProfile v).environmentDensity ∧
    (getPerformanceProfile v).environmentDensity ≤ 1 ∧
    0 ≤ (getPerformanceProfile v).structureDensity ∧
    (getPerformanceProfile v).structureDensity ≤ 1 := by
  cases hv : v.toBool <;>
    simp only [getPerformanceProfile, getPerformanceProfileSt, hv, if_true, if_false]
  · refine ⟨⟨2, rfl⟩, ⟨2, rfl⟩, ⟨2, rfl⟩, ?_, ?_, ?_, ?_⟩ <;>
      norm_num [moduleTables, ProfileTable.index_normal,
        ENVIRONMENT_DENSITY_MULTIPLIER, STRUCTURE_DENSITY_MULTIPLIER]
  · refine ⟨⟨1, rfl⟩, ⟨1, rfl⟩, ⟨1, rfl⟩, ?_, ?_, ?_, ?_⟩ <;>
      norm_num [moduleTables, ProfileTable.index_minimal,
        ENVIRONMENT_DENSITY_MULTIPLIER, STRUCTURE_DENSITY_MULTIPLIER]

/-- C8: profile resolution is pure and deterministic — two invocations with
equal arguments return structurally equal profile records, and the table
state observed by the resolver is returned unchanged. -/
theorem resolvePureDeterministic (tables : ProfileTables) (v w : JSValue) (h : v = w) :
    (getPerformanceProfileSt tables v).1 = (getPerformanceProfileSt tables w).1 ∧
    (getPerformanceProfileSt tables v).2 = tables :=
  ⟨by rw [h], rfl⟩

/-- C8 witness: purity and determinism at the module tables and the
concrete argument `true`. -/
theorem resolvePureDeterministic_witness :
    JSValue.bool true = JSValue.bool true ∧
    ((getPerformanceProfileSt moduleTables (JSValue.bool true)).1 =
       (getPerformanceProfileSt moduleTables (JSValue.bool true)).1 ∧
     (getPerformanceProfileSt moduleTables (JSValue.bool true)).2 = moduleTables) :=
  ⟨rfl, resolvePureDeterministic moduleTables (JSValue.bool true) (JSValue.bool true) rfl⟩

/-- C9: in both tiers the terrain LOD resolutions strictly decrease across
the near, mid, far and buffer bands and stay positive, and each
minimal-tier resolution is at most the normal-tier resolution of the same
band. -/
theorem terrainLodBandsDecrease :
    (TERRAIN_LOD.normal.nearResolution > TERRAIN_LOD.normal.midResolution ∧
     TERRAIN_LOD.normal.midResolution > TERRAIN_LOD.normal.farResolution ∧
     TERRAIN_LOD.normal.farResolution > TERRAIN_LOD.normal.bufferResolution ∧
     TERRAIN_LOD.normal.bufferResolution > 0) ∧
    (TERRAIN_LOD.minimal.nearResolution > TERRAIN_LOD.minimal.midResolution ∧
     TERRAIN_LOD.minimal.midResolution > TERRAIN_LOD.minimal.farResolution ∧
     TERRAIN_LOD.minimal.farResolution > TERRAIN_LOD.minimal.bufferResolution ∧
     TERRAIN_LOD.minimal.bufferResolution > 0) ∧
    (TERRAIN_LOD.minimal.nearResolution ≤ TERRAIN_LOD.normal.nearResolution ∧
     TERRAIN_LOD.minimal.midResolution ≤ TERRAIN_LOD.normal.midResolution ∧
     TERRAIN_LOD.minimal.farResolution ≤ TERRAIN_LOD.normal.farResolution ∧
     TERRAIN_LOD.minimal.bufferResolution ≤ TERRAIN_LOD.normal.bufferResolution) := by
  norm_num [TERRAIN_LOD]

/-! ## Claims about the persisted quality level -/

/-- C6 counterexample: with the minimal-mode checkbox unchecked, both the
change listener and `saveSettings` write the quality-level value `'ultra'`,
which is neither `'normal'` nor `'minimal'`. -/
theorem qualityLevelWritesUltra :
    GameplayTab.changeQualityLevel false ≠ "normal" ∧
    GameplayTab.changeQualityLevel false ≠ "minimal" ∧
    GameplayTab.saveQualityLevel false ≠ "normal" ∧
    GameplayTab.saveQualityLevel false ≠ "minimal" := by
  refine ⟨?_, ?_, ?_, ?_⟩ <;> decide

/-- C6 (amended): for every state of the minimal-mode checkbox — a `Bool`,
so exactly the two states below — the quality-level value written to
storage by the change listener and by `saveSettings` alike is exactly
`'minimal'` when the checkbox is checked and exactly `'ultra'` when it is
unchecked. -/
theorem qualityLevelTwoValued :
    (GameplayTab.changeQualityLevel true = "minimal" ∧
     GameplayTab.saveQualityLevel true = "minimal") ∧
    (GameplayTab.changeQualityLevel false = "ultra" ∧
     GameplayTab.saveQualityLevel false = "ultra") :=
  ⟨⟨rfl, rfl⟩, rfl, rfl⟩

/-! ## Claims about the scene optimizer -/

/-- In minimal mode, the traverse callback leaves every object with
shadow casting fully disabled. -/
theorem optimizeObject_minimal_shadows (hasFog : Bool) (o : Obj3D) :
    shadowsDisabled (optimizeObject true hasFog o) = true ∧
    (((optimizeObject true hasFog o).isMesh = true →
        (optimizeObject true hasFog o).castShadow = false ∧
        (optimizeObject true hasFog o).receiveShadow = false) ∧
      ((optimizeObject true hasFog o).isLight = true →
        (optimizeObject true hasFog o).shadow.isSome = true →
        (optimizeObject true hasFog o).castShadow = false)) := by
  rcases o with ⟨m, l, fc, cs, rs, ma, mat, sh⟩
  cases m <;> cases l <;> cases mat <;> cases sh <;>
    simp [optimizeObject, shadowsDisabled]

/-- In non-minimal modes, the traverse callback changes neither whether an
object is a mesh nor whether it casts shadows. -/
theorem optimizeObject_preserves_castShadow (hasFog : Bool) (o : Obj3D) :
    (optimizeObject false hasFog o).isMesh = o.isMesh ∧
    (optimizeObject false hasFog o).castShadow = o.castShadow := by
  rcases o with ⟨m, l, fc, cs, rs, ma, mat, sh⟩
  cases m <;> cases l <;> cases cs <;> cases mat <;> cases sh <;>
    simp [optimizeObject]

mutual

/-- Traversal commutation: the objects of an optimized node are the
optimizer image of the node's objects. -/
theorem nodeObjects_optimizeNode (im fog : Bool) (n : SceneNode) :
    nodeObjects (optimizeNode im fog n) = (nodeObjects n).map (optimizeObject im fog) := by
  match n with
  | .mk obj children =>
    simp only [optimizeNode, nodeObjects, List.map_cons,
      forestObjects_optimizeForest im fog children]

/-- Traversal commutation: the objects of an optimized forest are the
optimizer image of the forest's objects. -/
theorem forestObjects_optimizeForest (im fog : Bool) (f : SceneForest) :
    forestObjects (optimizeForest im fog f) = (forestObjects f).map (optimizeObject im fog) := by
  match f with
  | .nil => simp [optimizeForest, forestObjects]
  | .cons n rest =>
    simp only [optimizeForest, forestObjects, List.map_append,
      nodeObjects_optimizeNode im fog n, forestObjects_optimizeForest im fog rest]

end

/-- C5: after `SceneOptimizer.optimizeScene(scene, 'minimal')`, every mesh
in the scene neither casts nor receives shadows, and every light that has a
shadow does not cast one. -/
theorem optimizeSceneMinimalDisablesShadows (scene : Scene) :
    ∀ o ∈ forestObjects (SceneOptimizer.optimizeScene scene "minimal").root,
      (o.isMesh = true → o.castShadow = false ∧ o.receiveShadow = false) ∧
      (o.isLight = true → o.shadow.isSome = true → o.castShadow = false) := by
  intro o ho
  simp only [SceneOptimizer.optimizeScene, beq_self_eq_true] at ho
  rw [forestObjects_optimizeForest] at ho
  obtain ⟨o0, _, rfl⟩ := List.mem_map.mp ho
  exact (optimizeObject_minimal_shadows scene.fog o0).2

/-- C5 witness: shadow disabling at the first object of the concrete sample
scene optimized at quality level `'minimal'`. -/
theorem optimizeSceneMinimalDisablesShadows_witness :
    sampleMeshOptimized ∈
      forestObjects (SceneOptimizer.optimizeScene sampleScene "minimal").root ∧
    ((sampleMeshOptimized.isMesh = true →
        sampleMeshOptimized.castShadow = false ∧
        sampleMeshOptimized.receiveShadow = false) ∧
      (sampleMeshOptimized.isLight = true →
        sampleMeshOptimized.shadow.isSome = true →
        sampleMeshOptimized.castShadow = false)) :=
  ⟨by decide, optimizeSceneMinimalDisablesShadows sampleScene sampleMeshOptimized (by decide)⟩

/-- C10: for every quality level other than `'minimal'`,
`SceneOptimizer.optimizeScene` leaves the mesh flag and the `castShadow`
flag of every object in the scene unchanged — in particular a mesh that
cast shadows before the call still does, and one that did not still does
not. -/
theorem optimizeScenePreservesCastShadow (scene : Scene) (q : String) (h : q ≠ "minimal") :
    (forestObjects (SceneOptimizer.optimizeScene scene q).root).map
        (fun o => (o.isMesh, o.castShadow)) =
      (forestObjects scene.root).map (fun o => (o.isMesh, o.castShadow)) := by
  have hb : (q == "minimal") = false := by
    simp [h]
  simp only [SceneOptimizer.optimizeScene, hb]
  rw [forestObjects_optimizeForest, List.map_map]
  rw [List.map_eq_map_iff]
  intro o _
  have hp := optimizeObject_preserves_castShadow scene.fog o
  simp [Function.comp, hp.1, hp.2]

/-- C10 witness: castShadow preservation at the concrete sample scene with
quality level `'ultra'`. -/
theorem optimizeScenePreservesCastShadow_witness :
    "ultra" ≠ "minimal" ∧
    (forestObjects (SceneOptimizer.optimizeScene sampleScene "ultra").root).map
        (fun o => (o.isMesh, o.castShadow)) =
      (forestObjects sampleScene.root).map (fun o => (o.isMesh, o.castShadow)) :=
  ⟨by decide, optimizeScenePreservesCastShadow sampleScene "ultra" (by decide)⟩

/-! ## Claims about the generation scheduler -/

/-- Counting a category distributes over batch concatenation. -/
theorem countActions_append (p : SchedAction → Bool) (a b : List SchedAction) :
    countActions p (a ++ b) = countActions p a + countActions p b := by
  simp [countActions, List.filter_append]

/-- Eviction actions belong to none of the three generation categories. -/
theorem countActions_evict_map (p : SchedAction → Bool)
    (hp : ∀ c, p (SchedAction.evict c) = false)
    (xs : List (ChunkCoordinate × GenStage)) :
    countActions p (xs.map (fun q => SchedAction.evict q.1)) = 0 := by
  induction xs with
  | nil => rfl
  | cons x t ih =>
    simp only [List.map_cons, countActions, List.filter_cons, hp x.1] at ih ⊢
    simpa [countActions] using ih

/-- The generation walk never emits more terrain actions than the terrain
quota it starts with. -/
theorem stepGenerate_terrain_le (resident : List (ChunkCoordinate × GenStage))
    (l : List ChunkCoordinate) (tq sq vq : ℕ) :
    countActions SchedAction.isTerrain (stepGenerate resident l tq sq vq) ≤ tq := by
  induction l generalizing tq sq vq with
  | nil => simp [stepGenerate, countActions]
  | cons c rest ih =>
    cases hst : residentStage resident c <;>
      simp only [stepGenerate, hst]
    case absent =>
      by_cases htq : tq = 0
      · simpa [htq] using ih tq sq vq
      · have := ih (tq - 1) sq vq
        simp only [htq, if_false, countActions, List.filter_cons, SchedAction.isTerrain,
          if_true, List.length_cons]
        simp only [countActions] at this
        omega
    case terrainReady =>
      by_cases hsq : sq = 0
      · simpa [hsq] using ih tq sq vq
      · have := ih tq (sq - 1) vq
        simp only [hsq, if_false, countActions, List.filter_cons, SchedAction.isTerrain]
        simpa [countActions] using this
    case structuresReady =>
      by_cases hvq : vq = 0
      · simpa [hvq] using ih tq sq vq
      · have := ih tq sq (vq - 1)
        simp only [hvq, if_false, countActions, List.filter_cons, SchedAction.isTerrain]
        simpa [countActions] using this
    all_goals exact ih tq sq vq

/-- The generation walk never emits more structure actions than the
structure quota it starts with. -/
theorem stepGenerate_structures_le (resident : List (ChunkCoordinate × GenStage))
    (l : List ChunkCoordinate) (tq sq vq : ℕ) :
    countActions SchedAction.isStructure (stepGenerate resident l tq sq vq) ≤ sq := by
  induction l generalizing tq sq vq with
  | nil => simp [stepGenerate, countActions]
  | cons c rest ih =>
    cases hst : residentStage resident c <;>
      simp only [stepGenerate, hst]
    case absent =>
      by_cases htq : tq = 0
      · simpa [htq] using ih tq sq vq
      · have := ih (tq - 1) sq vq
        simp only [htq, if_false, countActions, List.filter_cons, SchedAction.isStructure]
        simpa [countActions] using this
    case terrainReady =>
      by_cases hsq : sq = 0
      · simpa [hsq] using ih tq sq vq
      · have := ih tq (sq - 1) vq
        simp only [hsq, if_false, countActions, List.filter_cons, SchedAction.isStructure,
          if_true, List.length_cons]
        simp only [countActions] at this
        omega
    case structuresReady =>
      by_cases hvq : vq = 0
      · simpa [hvq] using ih tq sq vq
      · have := ih tq sq (vq - 1)
        simp only [hvq, if_false, countActions, List.filter_cons, SchedAction.isStructure]
        simpa [countActions] using this
    all_goals exact ih tq sq vq

/-- The generation walk never emits more environment actions than the
environment quota it starts with. -/
theorem stepGenerate_environment_le (resident : List (ChunkCoordinate × GenStage))
    (l : List ChunkCoordinate) (tq sq vq : ℕ) :
    countActions SchedAction.isEnvironment (stepGenerate resident l tq sq vq) ≤ vq := by
  induction l generalizing tq sq vq with
  | nil => simp [stepGenerate, countActions]
  | cons c rest ih =>
    cases hst : residentStage resident c <;>
      simp only [stepGenerate, hst]
    case absent =>
      by_cases htq : tq = 0
      · simpa [htq] using ih tq sq vq
      · have := ih (tq - 1) sq vq
        simp only [htq, if_false, countActions, List.filter_cons, SchedAction.isEnvironment]
        simpa [countActions] using this
    case terrainReady =>
      by_cases hsq : sq = 0
      · simpa [hsq] using ih tq sq vq
      · have := ih tq (sq - 1) vq
        simp only [hsq, if_false, countActions, List.filter_cons, SchedAction.isEnvironment]
        simpa [countActions] using this
    case structuresReady =>
      by_cases hvq : vq = 0
      · simpa [hvq] using ih tq sq vq
      · have := ih tq sq (vq - 1)
        simp only [hvq, if_false, countActions, List.filter_cons, SchedAction.isEnvironment,
          if_true, List.length_cons]
        simp only [countActions] at this
        omega
    all_goals exact ih tq sq vq

/-- C3: in any single frame, the scheduler emits at most `chunksPerFrame`
terrain-generation actions, at most `structureChunksPerFrame` structure
actions and at most `envChunksPerFrame` environment actions, each quota
accounted independently of the other two categories. -/
theorem schedulerRespectsQuotas (desired : List ChunkCoordinate)
    (resident : List (ChunkCoordinate × GenStage)) (profile : PerformanceProfile) :
    countActions SchedAction.isTerrain (GenerationScheduler.step desired resident profile) ≤
      quotaNat profile.chunksPerFrame ∧
    countActions SchedAction.isStructure (GenerationScheduler.step desired resident profile) ≤
      quotaNat profile.structureChunksPerFrame ∧
    countActions SchedAction.isEnvironment (GenerationScheduler.step desired resident profile) ≤
      quotaNat profile.envChunksPerFrame := by
  have hsplit : ∀ p : SchedAction → Bool, (∀ c, p (SchedAction.evict c) = false) →
      countActions p (GenerationScheduler.step desired resident profile) =
        countActions p (stepGenerate resident desired (quotaNat profile.chunksPerFrame)
          (quotaNat profile.structureChunksPerFrame) (quotaNat profile.envChunksPerFrame)) := by
    intro p hp
    simp [GenerationScheduler.step, countActions_append, countActions_evict_map p hp]
  refine ⟨?_, ?_, ?_⟩
  · rw [hsplit _ (fun c => rfl)]
    exact stepGenerate_terrain_le ..
  · rw [hsplit _ (fun c => rfl)]
    exact stepGenerate_structures_le ..
  · rw [hsplit _ (fun c => rfl)]
    exact stepGenerate_environment_le ..
